import Mathlib

/-!
Shallow embedding of the core of the attachment-tracking system
(files src/core/models.py, src/core/views.py, src/core/forms.py).

Dates are modelled as integers (day ordinals), nullable database columns
as Option, and a failing Python attribute lookup or a violated database
constraint as an explicit error value.  Exact rational arithmetic stands
in for Python's numeric division where a computation divides.
-/

namespace AttachmentTracking

/-- Runtime failures of the embedded code: a missing attribute
(Python AttributeError) or a violated database constraint
(database IntegrityError). -/
inductive PyError where
  | attributeError
  | integrityError
  deriving DecidableEq, Repr

/-- Python truthiness of a nullable integer column: None and 0 are falsy,
every other integer is truthy. -/
def pyTruthyInt : Option Int → Bool
  | none => false
  | some n => n != 0

/-- The list AttachmentApplication.STATUS_CHOICES from src/core/models.py
(lines 491-504), exactly as declared in the source. -/
def STATUS_CHOICES : List (String × String) :=
  [("draft", "Draft"),
   ("submitted", "Submitted"),
   ("documents_verified", "Documents Verified"),
   ("department_review", "Under Department Review"),
   ("coordinator_review", "Under Coordinator Review"),
   ("approved", "Approved"),
   ("rejected", "Rejected"),
   ("placed", "Placed"),
   ("ongoing", "Ongoing"),
   ("completed", "Completed"),
   ("terminated", "Terminated"),
   ("withdrawn", "Withdrawn")]

/-- The machine-readable status values of STATUS_CHOICES. -/
def statusValues : List String := STATUS_CHOICES.map Prod.fst

/-- The columns of AttachmentApplication (src/core/models.py lines 489-682)
used by the embedded operations.  The model declares proposed_start_date and
proposed_end_date; it has no start_date or end_date column.  Field defaults
mirror the model declaration (status defaults to draft, marks to null,
grade to the empty string). -/
structure AttachmentApplication where
  student : Nat
  organization : Nat
  attachment_period : Nat
  proposed_start_date : Option Int := none
  proposed_end_date : Option Int := none
  status : String := "draft"
  assigned_supervisor : Option Nat := none
  current_week : Int := 0
  progress_percentage : Int := 0
  industry_supervisor_marks : Option Int := none
  university_supervisor_marks : Option Int := none
  report_marks : Option Int := none
  logbook_presentation_marks : Option Int := none
  total_marks : Option Int := none
  grade : String := ""
  deriving DecidableEq, Repr

/-- The method AttachmentApplication.calculate_progress (models.py lines
627-637).  Its guard reads self.start_date and self.end_date, attributes the
model does not declare (its date columns are proposed_start_date and
proposed_end_date), so for an application whose status is ongoing the
attribute lookup raises AttributeError; any other status makes the
conjunction short-circuit and the method returns 0 without touching any
field. -/
def calculate_progress (app : AttachmentApplication) :
    Except PyError (AttachmentApplication × Int) :=
  if app.status == "ongoing" then
    Except.error PyError.attributeError
  else
    Except.ok (app, 0)

/-- The method AttachmentApplication.calculate_total_marks (models.py lines
639-659): four sequential truthiness-guarded accumulations into a running
total and count; when at least one component contributed, the sum is stored
in total_marks and returned, otherwise the method returns None and changes
nothing. -/
def calculate_total_marks (app : AttachmentApplication) :
    AttachmentApplication × Option Int :=
  let acc0 : Int × Nat := (0, 0)
  let acc1 :=
    if pyTruthyInt app.industry_supervisor_marks then
      (acc0.1 + app.industry_supervisor_marks.getD 0, acc0.2 + 1)
    else acc0
  let acc2 :=
    if pyTruthyInt app.university_supervisor_marks then
      (acc1.1 + app.university_supervisor_marks.getD 0, acc1.2 + 1)
    else acc1
  let acc3 :=
    if pyTruthyInt app.report_marks then
      (acc2.1 + app.report_marks.getD 0, acc2.2 + 1)
    else acc2
  let acc4 :=
    if pyTruthyInt app.logbook_presentation_marks then
      (acc3.1 + app.logbook_presentation_marks.getD 0, acc3.2 + 1)
    else acc3
  if 0 < acc4.2 then
    ({ app with total_marks := some acc4.1 }, some acc4.1)
  else (app, none)

/-- The method AttachmentApplication.calculate_grade (models.py lines
661-673): the body is guarded by the truthiness of total_marks, so a null
or zero total leaves the grade untouched. -/
def calculate_grade (app : AttachmentApplication) : AttachmentApplication :=
  if pyTruthyInt app.total_marks then
    let t := app.total_marks.getD 0
    if 70 ≤ t then { app with grade := "A" }
    else if 60 ≤ t then { app with grade := "B" }
    else if 50 ≤ t then { app with grade := "C" }
    else if 40 ≤ t then { app with grade := "D" }
    else { app with grade := "F" }
  else app

/-- The four mark components of an application in source order. -/
def markComponents (app : AttachmentApplication) : List (Option Int) :=
  [app.industry_supervisor_marks, app.university_supervisor_marks,
   app.report_marks, app.logbook_presentation_marks]

/-- The mark components that Python treats as present: the truthy ones
(neither None nor zero). -/
def presentMarks (app : AttachmentApplication) : List Int :=
  ((markComponents app).filter pyTruthyInt).map fun m => m.getD 0

/-- The score columns of the Evaluation model (models.py lines 764-848);
overall_score is a nullable decimal column, modelled as an exact rational. -/
structure Evaluation where
  punctuality : Int
  reliability : Int
  initiative : Int
  teamwork : Int
  communication : Int
  professionalism : Int
  technical_knowledge : Int
  problem_solving : Int
  quality_of_work : Int
  productivity : Int
  overall_score : Option ℚ := none
  deriving DecidableEq, Repr

/-- The method Evaluation.calculate_overall (models.py lines 850-865):
professional average scaled to 50 plus technical average scaled to 50,
stored into overall_score and returned. -/
def calculate_overall (e : Evaluation) : Evaluation × ℚ :=
  let professional_avg : ℚ :=
    ((e.punctuality : ℚ) + (e.reliability : ℚ) + (e.initiative : ℚ) +
     (e.teamwork : ℚ) + (e.communication : ℚ) + (e.professionalism : ℚ)) / 6 * 5
  let technical_avg : ℚ :=
    ((e.technical_knowledge : ℚ) + (e.problem_solving : ℚ) +
     (e.quality_of_work : ℚ) + (e.productivity : ℚ)) / 4 * 5
  let overall := professional_avg + technical_avg
  ({ e with overall_score := some overall }, overall)

/-- The method Evaluation.save (models.py lines 867-869): recompute
overall_score via calculate_overall, then persist the instance. -/
def Evaluation.save (e : Evaluation) : Evaluation :=
  (calculate_overall e).1

/-- The Notification columns written by the signal handlers
(models.py lines 921-955). -/
structure Notification where
  user : Nat
  notification_type : String
  title : String
  message : String
  link : String
  deriving DecidableEq, Repr

/-- The post_save receiver create_application_notifications for
AttachmentApplication (models.py lines 1141-1178).  On creation it notifies
every coordinator.  On a save of an existing row it first evaluates
instance.tracker.has_changed, but AttachmentApplication declares no tracker
attribute (no FieldTracker is imported or defined anywhere in the
repository), so that attribute lookup raises AttributeError before any
notification row is created. -/
def create_application_notifications (coordinators : List Nat)
    (studentFullName orgName : String) (appId : Nat) (created : Bool)
    (_instance : AttachmentApplication) : Except PyError (List Notification) :=
  if created then
    Except.ok (coordinators.map fun c =>
      { user := c,
        notification_type := "info",
        title := "New Attachment Application",
        message := studentFullName ++ " has submitted an application to " ++ orgName,
        link := "/applications/" ++ toString appId ++ "/" })
  else
    Except.error PyError.attributeError

/-- The cross-field check AttachmentApplicationForm.clean (src/core/forms.py
lines 89-97).  A date value is truthy exactly when it is present, so the
guard fires when both dates are given and the end date is not strictly after
the start date; otherwise the cleaned data is returned unchanged. -/
def attachmentApplicationFormClean
    (proposed_start_date proposed_end_date : Option Int) :
    Except String (Option Int × Option Int) :=
  match proposed_start_date, proposed_end_date with
  | some s, some e =>
      if e ≤ s then Except.error "End date must be after start date"
      else Except.ok (some s, some e)
  | s, e => Except.ok (s, e)

/-- Saving a new AttachmentApplication row against a database that enforces
Meta.unique_together on student and attachment_period (models.py line 682):
a duplicate pair raises IntegrityError, otherwise the row is appended. -/
def insertApplication (db : List AttachmentApplication)
    (a : AttachmentApplication) : Except PyError (List AttachmentApplication) :=
  if db.any fun b =>
      b.student == a.student && b.attachment_period == a.attachment_period then
    Except.error PyError.integrityError
  else
    Except.ok (db ++ [a])

/-- The unsaved model instance produced by AttachmentApplicationForm: the
bound form fields, every other column at its model default — in particular
the status column at its default value draft. -/
def formInstance (organization attachment_period : Nat)
    (psd ped : Option Int) : AttachmentApplication :=
  { student := 0,
    organization := organization,
    attachment_period := attachment_period,
    proposed_start_date := psd,
    proposed_end_date := ped }

/-- The view apply_attachment (src/core/views.py lines 127-141), the only
view in the repository that saves an AttachmentApplication: it takes the
form instance, sets the student, assigns status submitted, and saves it as
a new row. -/
def apply_attachment (db : List AttachmentApplication) (studentId : Nat)
    (organization attachment_period : Nat) (psd ped : Option Int) :
    Except PyError (List AttachmentApplication) :=
  let application :=
    { formInstance organization attachment_period psd ped with
        student := studentId, status := "submitted" }
  insertApplication db application

/-- The superuser dashboard counter (src/core/views.py line 72): the number
of applications whose status equals the string pending. -/
def pendingApplicationsAdmin (db : List AttachmentApplication) : Nat :=
  (db.filter fun a => a.status == "pending").length

/-- The per-student dashboard counter (src/core/views.py lines 85-88): the
student's applications filtered on status equal to the string pending. -/
def pendingApplicationsStudent (db : List AttachmentApplication)
    (studentId : Nat) : Nat :=
  ((db.filter fun a => a.student == studentId).filter
    fun a => a.status == "pending").length

/-- The fixed forward transition set of the application workflow named by
the claim: draft, submitted, documents_verified, department_review,
coordinator_review, approved or rejected, placed, ongoing, then completed,
terminated or withdrawn. -/
def allowedTransitions : List (String × String) :=
  [("draft", "submitted"),
   ("submitted", "documents_verified"),
   ("documents_verified", "department_review"),
   ("department_review", "coordinator_review"),
   ("coordinator_review", "approved"),
   ("coordinator_review", "rejected"),
   ("approved", "placed"),
   ("placed", "ongoing"),
   ("ongoing", "completed"),
   ("ongoing", "terminated"),
   ("ongoing", "withdrawn")]

/-- Membership in the permitted transition set. -/
def allowed (a b : String) : Prop := (a, b) ∈ allowedTransitions

instance (a b : String) : Decidable (allowed a b) := by
  unfold allowed; infer_instance

/-- A numeric rank of the workflow states; every permitted transition
strictly increases it. -/
def statusRank (s : String) : Nat :=
  if s == "draft" then 0
  else if s == "submitted" then 1
  else if s == "documents_verified" then 2
  else if s == "department_review" then 3
  else if s == "coordinator_review" then 4
  else if s == "approved" then 5
  else if s == "rejected" then 5
  else if s == "placed" then 6
  else if s == "ongoing" then 7
  else 8

/-- One database step of the repository: an execution of the single view
that saves an AttachmentApplication (the remaining views read applications
or write other tables). -/
inductive Step : List AttachmentApplication → List AttachmentApplication → Prop
  | apply (db : List AttachmentApplication)
      (studentId organization attachment_period : Nat)
      (psd ped : Option Int) (db' : List AttachmentApplication)
      (h : apply_attachment db studentId organization attachment_period psd ped
            = Except.ok db') :
      Step db db'

/-- Database states reachable by repository operations. -/
def Reachable : List AttachmentApplication → List AttachmentApplication → Prop :=
  Relation.ReflTransGen Step

/-- The unique_together key of an application row. -/
def applicationKeys (db : List AttachmentApplication) : List (Nat × Nat) :=
  db.map fun a => (a.student, a.attachment_period)

/-- A base application value used by concrete witnesses. -/
def baseApp : AttachmentApplication :=
  { student := 1, organization := 1, attachment_period := 1 }

/-- All ten evaluation scores lie within the validator range 1 to 10
(the MinValueValidator and MaxValueValidator on every score column). -/
def scoresInRange (e : Evaluation) : Prop :=
  (1 ≤ e.punctuality ∧ e.punctuality ≤ 10) ∧
  (1 ≤ e.reliability ∧ e.reliability ≤ 10) ∧
  (1 ≤ e.initiative ∧ e.initiative ≤ 10) ∧
  (1 ≤ e.teamwork ∧ e.teamwork ≤ 10) ∧
  (1 ≤ e.communication ∧ e.communication ≤ 10) ∧
  (1 ≤ e.professionalism ∧ e.professionalism ≤ 10) ∧
  (1 ≤ e.technical_knowledge ∧ e.technical_knowledge ≤ 10) ∧
  (1 ≤ e.problem_solving ∧ e.problem_solving ≤ 10) ∧
  (1 ≤ e.quality_of_work ∧ e.quality_of_work ≤ 10) ∧
  (1 ≤ e.productivity ∧ e.productivity ≤ 10)

instance (e : Evaluation) : Decidable (scoresInRange e) := by
  unfold scoresInRange; infer_instance

/-- A concrete evaluation with every score equal to 5, used by witnesses. -/
def demoEval : Evaluation :=
  { punctuality := 5, reliability := 5, initiative := 5, teamwork := 5,
    communication := 5, professionalism := 5, technical_knowledge := 5,
    problem_solving := 5, quality_of_work := 5, productivity := 5 }

/-! Helper lemmas shared by the claim theorems. -/

/-- Every permitted transition strictly increases the status rank. -/
theorem allowed_rank_increases :
    ∀ a b : String, allowed a b → statusRank a < statusRank b := by
  have hall : ∀ p ∈ allowedTransitions, statusRank p.1 < statusRank p.2 := by
    decide
  intro a b h
  exact hall (a, b) h

/-- Decomposition of a database step: the sole mutating view appends one
fresh application whose status is submitted, and only when no existing row
shares its unique_together key. -/
theorem step_shape {db db' : List AttachmentApplication} (h : Step db db') :
    ∃ a : AttachmentApplication, a.status = "submitted" ∧ db' = db ++ [a] ∧
      (db.any fun b =>
        b.student == a.student && b.attachment_period == a.attachment_period)
        = false := by
  cases h with
  | apply _ _ _ _ _ _ heq =>
    unfold apply_attachment insertApplication at heq
    dsimp only at heq
    split at heq
    · cases heq
    next hcond =>
      injection heq with heq
      exact ⟨_, rfl, heq.symm, by simpa using hcond⟩

/-- Evaluation of calculate_total_marks: the sum and count of the truthy
components, stored when the count is positive. -/
theorem calculate_total_marks_eq (app : AttachmentApplication) :
    calculate_total_marks app =
      if 0 < (presentMarks app).length then
        ({ app with total_marks := some (presentMarks app).sum },
          some (presentMarks app).sum)
      else (app, none) := by
  unfold calculate_total_marks presentMarks markComponents
  cases h1 : pyTruthyInt app.industry_supervisor_marks <;>
  cases h2 : pyTruthyInt app.university_supervisor_marks <;>
  cases h3 : pyTruthyInt app.report_marks <;>
  cases h4 : pyTruthyInt app.logbook_presentation_marks <;>
    simp [h1, h2, h3, h4, List.filter, add_assoc]

/-! Claim theorems. -/

/-- C1: the application status only ever changes along the fixed forward
transition set: every permitted transition strictly increases the state
rank, hence no transition path forms a cycle; and every repository step
leaves each existing application row unchanged (so never moves one from a
later state back to an earlier one) and only inserts a fresh application
whose status arose by the permitted forward transition from the draft
default to submitted. -/
theorem claim_C1_forward_only :
    (∀ a b : String, allowed a b → statusRank a < statusRank b) ∧
    (∀ s : String, ¬ Relation.TransGen allowed s s) ∧
    (∀ db db' : List AttachmentApplication, Step db db' →
      (∀ a ∈ db, a ∈ db') ∧
      ∀ a ∈ db', a ∈ db ∨ (a.status = "submitted" ∧ allowed "draft" a.status)) := by
  refine ⟨allowed_rank_increases, ?_, ?_⟩
  · intro s hcycle
    have mono : ∀ x y : String, Relation.TransGen allowed x y →
        statusRank x < statusRank y := by
      intro x y hxy
      induction hxy with
      | single h => exact allowed_rank_increases _ _ h
      | tail _ h ih => exact ih.trans (allowed_rank_increases _ _ h)
    exact absurd (mono s s hcycle) (lt_irrefl _)
  · intro db db' hstep
    obtain ⟨a, ha, rfl, -⟩ := step_shape hstep
    constructor
    · intro x hx
      exact List.mem_append_left _ hx
    · intro x hx
      rcases List.mem_append.mp hx with hx | hx
      · exact Or.inl hx
      · right
        have hxa : x = a := List.mem_singleton.mp hx
        subst hxa
        exact ⟨ha, by rw [ha]; decide⟩

/-- Witness for C1 at concrete inputs: the transition from draft to
submitted, the absence of a cycle at draft, and the decomposition of the
concrete step that inserts one submitted application into the empty
database. -/
theorem claim_C1_forward_only_witness :
    statusRank "draft" < statusRank "submitted" ∧
    (¬ Relation.TransGen allowed "draft" "draft") ∧
    (∀ a ∈ ([{ baseApp with student := 7, status := "submitted" }] :
        List AttachmentApplication),
      a ∈ ([] : List AttachmentApplication) ∨
        (a.status = "submitted" ∧ allowed "draft" a.status)) := by
  have hstep : Step [] [{ baseApp with student := 7, status := "submitted" }] :=
    Step.apply [] 7 1 1 none none _ rfl
  exact ⟨claim_C1_forward_only.1 "draft" "submitted" (by decide),
         claim_C1_forward_only.2.1 "draft",
         (claim_C1_forward_only.2.2 _ _ hstep).2⟩

/-- C2: the post-save hook, on a save of an existing application (created
false), evaluates the undeclared tracker attribute and therefore raises
AttributeError; no notification row is ever created, whatever the
coordinators, names, id and application are. -/
theorem claim_C2_hook_attribute_error :
    ∀ (coordinators : List Nat) (studentFullName orgName : String)
      (appId : Nat) (app : AttachmentApplication),
      create_application_notifications coordinators studentFullName orgName
        appId false app = Except.error PyError.attributeError := by
  intro _ _ _ _ _
  rfl

/-- C3 counterexample: STATUS_CHOICES declares twelve states, not the
thirteen the claim asserts. -/
theorem claim_C3_counterexample :
    STATUS_CHOICES.length = 12 ∧ ¬ (STATUS_CHOICES.length = 13) := by
  exact ⟨rfl, by decide⟩

/-- C3 (amended): the status field ranges over exactly twelve distinct
named states, and every status held by an application in a database state
reachable by the repository operations is one of the twelve. -/
theorem claim_C3_twelve_states :
    statusValues.length = 12 ∧ statusValues.Nodup ∧
    ∀ db : List AttachmentApplication, Reachable [] db →
      ∀ a ∈ db, a.status ∈ statusValues := by
  refine ⟨rfl, by decide, ?_⟩
  intro db hdb
  induction hdb with
  | refl =>
    intro a ha
    exact absurd ha (List.not_mem_nil a)
  | tail _ hstep ih =>
    intro a ha
    obtain ⟨na, hna, rfl, -⟩ := step_shape hstep
    rcases List.mem_append.mp ha with h | h
    · exact ih a h
    · have hxa : a = na := List.mem_singleton.mp h
      subst hxa
      rw [hna]
      decide

/-- Witness for C3: the amended theorem applied to the concrete database
reached by one application submission from the empty database. -/
theorem claim_C3_twelve_states_witness :
    ({ baseApp with student := 7, status := "submitted" } :
        AttachmentApplication).status ∈ statusValues := by
  have hstep : Step [] [{ baseApp with student := 7, status := "submitted" }] :=
    Step.apply [] 7 1 1 none none _ rfl
  exact claim_C3_twelve_states.2.2 _ (Relation.ReflTransGen.single hstep) _
    (List.mem_singleton.mpr rfl)

/-- C4 counterexample: with exactly the two components 80 and 60 present,
calculate_total_marks stores and returns 140, the sum, not the arithmetic
average 70 of the present components. -/
theorem claim_C4_counterexample :
    (calculate_total_marks
        { baseApp with industry_supervisor_marks := some 80,
                       university_supervisor_marks := some 60 }).2 = some 140 ∧
    ((80 : Int) + 60) / 2 = 70 ∧
    ¬ ((calculate_total_marks
        { baseApp with industry_supervisor_marks := some 80,
                       university_supervisor_marks := some 60 }).2 = some 70) := by
  refine ⟨rfl, rfl, ?_⟩
  decide

/-- C4 (amended): calculate_total_marks stores in total_marks the sum of
the present components (those neither null nor zero) and returns it; when
no component is present it returns None and leaves the application
unchanged. -/
theorem claim_C4_sum_not_average :
    ∀ app : AttachmentApplication,
      calculate_total_marks app =
        if 0 < (presentMarks app).length then
          ({ app with total_marks := some (presentMarks app).sum },
            some (presentMarks app).sum)
        else (app, none) :=
  calculate_total_marks_eq

/-- C5: for an evaluation whose ten scores all lie in 1..10, saving it
recomputes overall_score to the professional average scaled to 50 plus the
technical average scaled to 50 (exact rational arithmetic), and this score
always lies between 10 and 100. -/
theorem claim_C5_overall_bounds (e : Evaluation) (h : scoresInRange e) :
    ∃ q : ℚ,
      Evaluation.save e = { e with overall_score := some q } ∧
      (calculate_overall e).2 = q ∧
      q = ((e.punctuality : ℚ) + (e.reliability : ℚ) + (e.initiative : ℚ) +
            (e.teamwork : ℚ) + (e.communication : ℚ) +
            (e.professionalism : ℚ)) / 6 * 5 +
          ((e.technical_knowledge : ℚ) + (e.problem_solving : ℚ) +
            (e.quality_of_work : ℚ) + (e.productivity : ℚ)) / 4 * 5 ∧
      10 ≤ q ∧ q ≤ 100 := by
  obtain ⟨⟨h1a, h1b⟩, ⟨h2a, h2b⟩, ⟨h3a, h3b⟩, ⟨h4a, h4b⟩, ⟨h5a, h5b⟩,
          ⟨h6a, h6b⟩, ⟨h7a, h7b⟩, ⟨h8a, h8b⟩, ⟨h9a, h9b⟩, ⟨h10a, h10b⟩⟩ := h
  refine ⟨_, rfl, rfl, rfl, ?_, ?_⟩ <;>
  · have s1 : (6 : Int) ≤ e.punctuality + e.reliability + e.initiative +
        e.teamwork + e.communication + e.professionalism := by omega
    have s2 : e.punctuality + e.reliability + e.initiative +
        e.teamwork + e.communication + e.professionalism ≤ (60 : Int) := by omega
    have s3 : (4 : Int) ≤ e.technical_knowledge + e.problem_solving +
        e.quality_of_work + e.productivity := by omega
    have s4 : e.technical_knowledge + e.problem_solving +
        e.quality_of_work + e.productivity ≤ (40 : Int) := by omega
    have q1 : (6 : ℚ) ≤ (e.punctuality : ℚ) + (e.reliability : ℚ) +
        (e.initiative : ℚ) + (e.teamwork : ℚ) + (e.communication : ℚ) +
        (e.professionalism : ℚ) := by exact_mod_cast s1
    have q2 : (e.punctuality : ℚ) + (e.reliability : ℚ) +
        (e.initiative : ℚ) + (e.teamwork : ℚ) + (e.communication : ℚ) +
        (e.professionalism : ℚ) ≤ 60 := by exact_mod_cast s2
    have q3 : (4 : ℚ) ≤ (e.technical_knowledge : ℚ) + (e.problem_solving : ℚ) +
        (e.quality_of_work : ℚ) + (e.productivity : ℚ) := by exact_mod_cast s3
    have q4 : (e.technical_knowledge : ℚ) + (e.problem_solving : ℚ) +
        (e.quality_of_work : ℚ) + (e.productivity : ℚ) ≤ 40 := by
      exact_mod_cast s4
    linarith

/-- Witness for C5: the evaluation with every score 5 is in range and its
save stores the overall score, which lands between 10 and 100. -/
theorem claim_C5_overall_bounds_witness :
    scoresInRange demoEval ∧
    ∃ q : ℚ,
      Evaluation.save demoEval = { demoEval with overall_score := some q } ∧
      (calculate_overall demoEval).2 = q ∧
      q = ((demoEval.punctuality : ℚ) + (demoEval.reliability : ℚ) +
            (demoEval.initiative : ℚ) + (demoEval.teamwork : ℚ) +
            (demoEval.communication : ℚ) +
            (demoEval.professionalism : ℚ)) / 6 * 5 +
          ((demoEval.technical_knowledge : ℚ) +
            (demoEval.problem_solving : ℚ) + (demoEval.quality_of_work : ℚ) +
            (demoEval.productivity : ℚ)) / 4 * 5 ∧
      10 ≤ q ∧ q ≤ 100 :=
  ⟨by decide, claim_C5_overall_bounds demoEval (by decide)⟩

/-- C6: calculate_progress returns 0 and modifies no field for an
application whose status is not ongoing; for an ongoing application the
lookup of the undeclared start_date attribute raises AttributeError instead
of computing any progress. -/
theorem claim_C6_progress_attribute_error (app : AttachmentApplication) :
    (app.status ≠ "ongoing" → calculate_progress app = Except.ok (app, 0)) ∧
    (app.status = "ongoing" →
      calculate_progress app = Except.error PyError.attributeError) := by
  constructor
  · intro h
    simp [calculate_progress, beq_iff_eq, h]
  · intro h
    simp [calculate_progress, beq_iff_eq, h]

/-- Witness for C6: the draft application passes through unchanged with
progress 0, while the ongoing application raises AttributeError. -/
theorem claim_C6_witness :
    calculate_progress baseApp = Except.ok (baseApp, 0) ∧
    calculate_progress { baseApp with status := "ongoing" } =
      Except.error PyError.attributeError :=
  ⟨(claim_C6_progress_attribute_error baseApp).1 (by decide),
   (claim_C6_progress_attribute_error _).2 rfl⟩

/-- C7: the cross-field check of AttachmentApplicationForm raises the
validation error with message End date must be after start date exactly when
both dates are provided and the end date is less than or equal to the start
date; in every other case it returns the cleaned data unchanged. -/
theorem claim_C7_date_check (s e : Option Int) :
    (attachmentApplicationFormClean s e =
        Except.error "End date must be after start date" ↔
      ∃ sd ed : Int, s = some sd ∧ e = some ed ∧ ed ≤ sd) ∧
    ((¬ ∃ sd ed : Int, s = some sd ∧ e = some ed ∧ ed ≤ sd) →
      attachmentApplicationFormClean s e = Except.ok (s, e)) := by
  rcases s with - | sd <;> rcases e with - | ed <;>
    simp [attachmentApplicationFormClean]

/-- Witness for C7: a start date strictly before the end date passes the
check and the cleaned data comes back unchanged. -/
theorem claim_C7_witness :
    attachmentApplicationFormClean (some 1) (some 5) =
      Except.ok (some 1, some 5) :=
  (claim_C7_date_check (some 1) (some 5)).2 (by
    rintro ⟨sd, ed, hs, he, hle⟩
    injection hs with hs
    injection he with he
    omega)

/-- C8: at most one application row per student and attachment period.
Saving a second application for the same pair raises IntegrityError, and
every repository step preserves the uniqueness of the pair keys. -/
theorem claim_C8_unique_together :
    (∀ (db : List AttachmentApplication) (a : AttachmentApplication),
      (∃ b ∈ db, b.student = a.student ∧
        b.attachment_period = a.attachment_period) →
      insertApplication db a = Except.error PyError.integrityError) ∧
    (∀ db db' : List AttachmentApplication, Step db db' →
      (applicationKeys db).Nodup → (applicationKeys db').Nodup) := by
  constructor
  · rintro db a ⟨b, hb, h1, h2⟩
    unfold insertApplication
    rw [if_pos]
    rw [List.any_eq_true]
    exact ⟨b, hb, by simp [h1, h2]⟩
  · intro db db' hstep hnd
    obtain ⟨a, -, rfl, hfalse⟩ := step_shape hstep
    have hkeys : applicationKeys (db ++ [a]) =
        applicationKeys db ++ [(a.student, a.attachment_period)] := by
      simp [applicationKeys]
    rw [hkeys]
    refine List.Nodup.append hnd (List.nodup_singleton _) ?_
    intro x hx hx'
    obtain ⟨b, hb, rfl⟩ := List.mem_map.mp hx
    have hxa := List.mem_singleton.mp hx'
    have hany := List.any_eq_false.mp hfalse b hb
    apply hany
    have h1 : b.student = a.student := congrArg Prod.fst hxa
    have h2 : b.attachment_period = a.attachment_period :=
      congrArg Prod.snd hxa
    simp [h1, h2]

/-- Witness for C8: inserting a duplicate of the base application raises
IntegrityError, and the concrete step from the empty database keeps the
pair keys duplicate-free. -/
theorem claim_C8_unique_together_witness :
    insertApplication [baseApp] baseApp = Except.error PyError.integrityError ∧
    (applicationKeys [{ baseApp with student := 7, status := "submitted" }]).Nodup := by
  constructor
  · exact claim_C8_unique_together.1 [baseApp] baseApp
      ⟨baseApp, List.mem_singleton.mpr rfl, rfl, rfl⟩
  · exact claim_C8_unique_together.2 [] _
      (Step.apply [] 7 1 1 none none _ rfl) List.nodup_nil

/-- C9: a mark of zero is treated as absent throughout the marks pipeline.
Setting any single component to zero gives calculate_total_marks the same
returned total as setting it to null; calculate_grade leaves the
application completely unchanged when total_marks is null or zero (so a
total of 0 never yields grade F); and for a strictly positive total the
grade thresholds are A at 70, B at 60, C at 50, D at 40 and F below 40. -/
theorem claim_C9_zero_marks (app : AttachmentApplication) :
    ((calculate_total_marks
        { app with industry_supervisor_marks := some 0 }).2 =
      (calculate_total_marks
        { app with industry_supervisor_marks := none }).2 ∧
     (calculate_total_marks
        { app with university_supervisor_marks := some 0 }).2 =
      (calculate_total_marks
        { app with university_supervisor_marks := none }).2 ∧
     (calculate_total_marks { app with report_marks := some 0 }).2 =
      (calculate_total_marks { app with report_marks := none }).2 ∧
     (calculate_total_marks
        { app with logbook_presentation_marks := some 0 }).2 =
      (calculate_total_marks
        { app with logbook_presentation_marks := none }).2) ∧
    (app.total_marks = none ∨ app.total_marks = some 0 →
      calculate_grade app = app) ∧
    (∀ t : Int, app.total_marks = some t → 0 < t →
      (calculate_grade app).grade =
        if 70 ≤ t then "A" else if 60 ≤ t then "B" else if 50 ≤ t then "C"
        else if 40 ≤ t then "D" else "F") := by
  refine ⟨⟨?_, ?_, ?_, ?_⟩, ?_, ?_⟩
  case _ =>
    have hp : presentMarks { app with industry_supervisor_marks := some 0 } =
        presentMarks { app with industry_supervisor_marks := none } := by
      simp [presentMarks, markComponents, pyTruthyInt, List.filter_cons]
    rw [calculate_total_marks_eq, calculate_total_marks_eq, hp]
    split_ifs <;> rfl
  case _ =>
    have hp : presentMarks { app with university_supervisor_marks := some 0 } =
        presentMarks { app with university_supervisor_marks := none } := by
      simp [presentMarks, markComponents, pyTruthyInt, List.filter_cons]
    rw [calculate_total_marks_eq, calculate_total_marks_eq, hp]
    split_ifs <;> rfl
  case _ =>
    have hp : presentMarks { app with report_marks := some 0 } =
        presentMarks { app with report_marks := none } := by
      simp [presentMarks, markComponents, pyTruthyInt, List.filter_cons]
    rw [calculate_total_marks_eq, calculate_total_marks_eq, hp]
    split_ifs <;> rfl
  case _ =>
    have hp : presentMarks { app with logbook_presentation_marks := some 0 } =
        presentMarks { app with logbook_presentation_marks := none } := by
      simp [presentMarks, markComponents, pyTruthyInt, List.filter_cons]
    rw [calculate_total_marks_eq, calculate_total_marks_eq, hp]
    split_ifs <;> rfl
  case _ =>
    rintro (h | h) <;> simp [calculate_grade, pyTruthyInt, h]
  case _ =>
    intro t ht hpos
    have hne : (t != 0) = true := by
      simpa using (by omega : t ≠ 0)
    unfold calculate_grade
    rw [ht]
    simp only [pyTruthyInt, hne, if_true, Option.getD_some]
    split_ifs <;> rfl

/-- Witness for C9: a zero total leaves everything unchanged, and a total
of 45 earns grade D. -/
theorem claim_C9_zero_marks_witness :
    calculate_grade { baseApp with total_marks := some 0 } =
      { baseApp with total_marks := some 0 } ∧
    (calculate_grade { baseApp with total_marks := some 45 }).grade = "D" := by
  constructor
  · exact (claim_C9_zero_marks _).2.1 (Or.inr rfl)
  · have h := (claim_C9_zero_marks
      { baseApp with total_marks := some 45 }).2.2 45 rfl (by decide)
    simpa using h

/-- C10: as long as every application status is one of the twelve declared
STATUS_CHOICES values, both dashboard counters that filter on the
undeclared status pending count zero applications. -/
theorem claim_C10_pending_always_zero :
    ∀ (db : List AttachmentApplication) (studentId : Nat),
      (∀ a ∈ db, a.status ∈ statusValues) →
      pendingApplicationsAdmin db = 0 ∧
        pendingApplicationsStudent db studentId = 0 := by
  intro db studentId h
  have hnp : ∀ a ∈ db, ¬ (a.status == "pending") = true := by
    intro a ha hpend
    have hps : a.status = "pending" := by simpa using hpend
    have hmem := h a ha
    rw [hps] at hmem
    exact absurd hmem (by decide)
  constructor
  · unfold pendingApplicationsAdmin
    rw [List.filter_eq_nil_iff.mpr hnp]
    rfl
  · unfold pendingApplicationsStudent
    rw [List.filter_eq_nil_iff.mpr
      (fun a ha => hnp a (List.mem_filter.mp ha).1)]
    rfl

/-- Witness for C10: on a one-row database holding a submitted application,
both pending counters are zero. -/
theorem claim_C10_pending_always_zero_witness :
    pendingApplicationsAdmin [{ baseApp with status := "submitted" }] = 0 ∧
    pendingApplicationsStudent [{ baseApp with status := "submitted" }] 1 = 0 :=
  claim_C10_pending_always_zero _ 1 (by decide)

end AttachmentTracking
